import Mathlib

/-!
Shallow embedding of the eligibility and matching logic of the LifeLine
blood-donation application (src/users/models.py and src/users/views.py).

Dates are modelled as proleptic-Gregorian calendar dates; `toordinal`
mirrors Python's `date.toordinal`, so that `(a - b).days` becomes a
difference of ordinals.  Datetimes are a date together with a
second-of-day; Python's datetime comparison is modelled by comparing
`dtKey`.  Django model instances become structures; `None`-able fields
become `Option`; querysets become lists; Python truthiness of a returned
expression is modelled as the `Bool` the predicates compute.
-/

/-- A calendar date, as Python's `datetime.date` (proleptic Gregorian). -/
structure Date where
  year : Nat
  month : Nat
  day : Nat
deriving DecidableEq, Repr

/-- Gregorian leap-year test, as Python's `calendar.isleap`. -/
def isLeap (y : Nat) : Bool :=
  y % 4 = 0 && (y % 100 ≠ 0 || y % 400 = 0)

/-- Number of days in month `m` of year `y`. -/
def daysInMonth (y m : Nat) : Nat :=
  match m with
  | 1 => 31
  | 2 => if isLeap y then 29 else 28
  | 3 => 31
  | 4 => 30
  | 5 => 31
  | 6 => 30
  | 7 => 31
  | 8 => 31
  | 9 => 30
  | 10 => 31
  | 11 => 30
  | 12 => 31
  | _ => 0

/-- Days in year `y` strictly before month `m`. -/
def daysBeforeMonth (y m : Nat) : Nat :=
  (List.range (m - 1)).foldl (fun acc i => acc + daysInMonth y (i + 1)) 0

/-- Python's `date.toordinal`: day count with 0001-01-01 as day 1. -/
def toordinal (d : Date) : Nat :=
  365 * (d.year - 1) + (d.year - 1) / 4 - (d.year - 1) / 100 + (d.year - 1) / 400
    + daysBeforeMonth d.year d.month + d.day

/-- `(b - a).days` on Python dates: the signed ordinal difference. -/
def daysFromTo (a b : Date) : Int :=
  (toordinal b : Int) - (toordinal a : Int)

/-- A datetime: a date plus a second-of-day (0 ≤ sec < 86400 for valid ones). -/
structure DateTime where
  date : Date
  sec : Nat
deriving DecidableEq, Repr

/-- Linearisation of a datetime; Python datetime ordering compares these keys. -/
def dtKey (t : DateTime) : Nat :=
  toordinal t.date * 86400 + t.sec

/-- The `users.User` Django model: the fields the eligibility logic reads.
`is_authenticated` models the Django property of the same name (false for
`AnonymousUser`); `None`-able columns are `Option`. -/
structure User where
  id : Nat
  is_authenticated : Bool
  date_of_birth : Option Date
  blood_group : String
  weight : Option ℚ
  last_donation_date : Option Date
  is_email_verified : Bool
  is_donor : Bool
  is_recipient : Bool
  is_available_for_donation : Bool
  email_verification_token : Nat
deriving DecidableEq, Repr

namespace User

/-- `User.can_donate` (src/users/models.py lines 97-107): donor and available,
and either no recorded last donation or at least 90 days since it.
`today` stands for `timezone.now().date()`. -/
def can_donate (u : User) (today : Date) : Bool :=
  if !u.is_donor || !u.is_available_for_donation then
    false
  else
    match u.last_donation_date with
    | some last => decide (90 ≤ daysFromTo last today)
    | none => true

/-- `User.get_age` (src/users/models.py lines 109-114): years since birth,
minus one if today's (month, day) precedes the birthday's (tuple order);
`None` when `date_of_birth` is absent. -/
def get_age (u : User) (today : Date) : Option Int :=
  match u.date_of_birth with
  | some dob =>
      some ((today.year : Int) - (dob.year : Int) -
        (if today.month < dob.month ∨ (today.month = dob.month ∧ today.day < dob.day)
         then 1 else 0))
  | none => none

/-- `User.is_eligible_donor` (src/users/models.py lines 116-128).  Python's
`if not age` is false for `None` and for `0`; `self.weight and self.weight >= 50`
is truthy iff the weight is present, nonzero and at least 50; `self.blood_group`
is truthy iff non-empty.  The Bool is the truthiness of the returned value. -/
def is_eligible_donor (u : User) (today : Date) : Bool :=
  match u.get_age today with
  | none => false
  | some a =>
      if a = 0 then false
      else
        decide (18 ≤ a) && decide (a ≤ 65) &&
        (match u.weight with
         | some w => decide (w ≠ 0) && decide (50 ≤ w)
         | none => false) &&
        decide (u.blood_group ≠ "") &&
        u.can_donate today

end User

/-- The `users.BloodRequest` Django model: the fields the logic reads.
`needed_by_date` is `Option` because the code guards it against `None`. -/
structure BloodRequest where
  id : Nat
  requester : User
  blood_group_needed : String
  needed_by_date : Option DateTime
  status : String
deriving DecidableEq, Repr

namespace BloodRequest

/-- `BloodRequest.is_expired` (src/users/models.py lines 186-190):
false when `needed_by_date` is `None`, else `timezone.now() > needed_by_date`. -/
def is_expired (r : BloodRequest) (now : DateTime) : Bool :=
  match r.needed_by_date with
  | none => false
  | some d => decide (dtKey d < dtKey now)

/-- `BloodRequest.can_accept` (src/users/models.py lines 192-203).  The user
argument is `none` for a literally absent user; Django compares model
instances by primary key, hence the `id` comparison with the requester. -/
def can_accept (r : BloodRequest) (user : Option User) (now : DateTime) : Bool :=
  match user with
  | none => false
  | some u =>
      if !u.is_authenticated then false
      else
        decide (u.id ≠ r.requester.id) &&
        u.is_eligible_donor now.date &&
        decide (u.blood_group = r.blood_group_needed) &&
        decide (r.status = "ACTIVE") &&
        !(r.is_expired now)

/-- `BloodRequest.get_compatible_donors` (src/users/models.py lines 205-212):
filter the user table on blood group, donor flag, availability and email
verification, then exclude the requester by id. -/
def get_compatible_donors (db : List User) (r : BloodRequest) : List User :=
  (db.filter (fun u =>
      decide (u.blood_group = r.blood_group_needed) &&
      u.is_donor && u.is_available_for_donation && u.is_email_verified)).filter
    (fun u => decide (u.id ≠ r.requester.id))

end BloodRequest

/-- The `users.BloodRequestResponse` Django model: the columns relevant to the
`unique_together = ['blood_request', 'donor']` invariant. -/
structure Response where
  blood_request_id : Nat
  donor_id : Nat
  response : String
  message : String
deriving DecidableEq, Repr

/-- `BloodRequestResponseCreateView.dispatch`/`form_valid`
(src/users/views.py lines 384-417): refuse when `can_accept` fails, refuse
when a response by this donor for this request already exists, otherwise
create the response with the request and donor filled in. -/
def respondCreate (s : List Response) (r : BloodRequest) (u : User)
    (now : DateTime) (resp msg : String) : List Response :=
  if !(r.can_accept (some u) now) then s
  else if s.any (fun x => decide (x.blood_request_id = r.id) && decide (x.donor_id = u.id)) then s
  else s ++ [⟨r.id, u.id, resp, msg⟩]

/-- States of the response table reachable from the empty table by the
response-creation operation. -/
inductive ReachableResponses : List Response → Prop
  | init : ReachableResponses []
  | step (s : List Response) (r : BloodRequest) (u : User) (now : DateTime)
      (resp msg : String) :
      ReachableResponses s → ReachableResponses (respondCreate s r u now resp msg)

/-- The `unique_together` invariant: no two rows share the
(blood_request, donor) pair. -/
def uniquePairs (s : List Response) : Prop :=
  List.Pairwise
    (fun a b => ¬(a.blood_request_id = b.blood_request_id ∧ a.donor_id = b.donor_id)) s

/-- `EmailVerificationView.get` (src/users/views.py lines 93-109): look up the
user by verification token with `User.objects.get`.  No match raises
`DoesNotExist`, which the view catches (error message, no save); exactly one
match proceeds: if the user is not yet verified, set the flag and save,
otherwise do nothing; two or more matches raise `MultipleObjectsReturned`,
which the view does not catch — the token column has no unique constraint, so
this path is reachable and nothing is saved.  Result: the new table, the
number of saves, and whether an exception escaped the view. -/
def emailVerify (db : List User) (token : Nat) : List User × Nat × Bool :=
  match db.filter (fun u => u.email_verification_token = token) with
  | [] => (db, 0, false)
  | [u] =>
      if u.is_email_verified then (db, 0, false)
      else
        (db.map (fun v =>
          if v.id = u.id then { u with is_email_verified := true } else v), 1, false)
  | _ => (db, 0, true)

/-- All `User` fields except the email-verified flag agree. -/
def sameExceptVerified (v w : User) : Prop :=
  v.id = w.id ∧ v.is_authenticated = w.is_authenticated ∧
  v.date_of_birth = w.date_of_birth ∧ v.blood_group = w.blood_group ∧
  v.weight = w.weight ∧ v.last_donation_date = w.last_donation_date ∧
  v.is_donor = w.is_donor ∧ v.is_recipient = w.is_recipient ∧
  v.is_available_for_donation = w.is_available_for_donation ∧
  v.email_verification_token = w.email_verification_token

/-- A requester: authenticated, verified, with no medical data on file. -/
def reqOwner : User :=
  { id := 1, is_authenticated := true, date_of_birth := none, blood_group := "A+",
    weight := none, last_donation_date := none, is_email_verified := true,
    is_donor := true, is_recipient := true, is_available_for_donation := true,
    email_verification_token := 0 }

/-- A donor matching the query flags but weighing only 40 kg. -/
def underweightDonor : User :=
  { id := 2, is_authenticated := true, date_of_birth := some ⟨1994, 1, 1⟩,
    blood_group := "O+", weight := some 40, last_donation_date := none,
    is_email_verified := true, is_donor := true, is_recipient := true,
    is_available_for_donation := true, email_verification_token := 1 }

/-- An active O+ request with no deadline, owned by `reqOwner`. -/
def requestO : BloodRequest :=
  { id := 10, requester := reqOwner, blood_group_needed := "O+",
    needed_by_date := none, status := "ACTIVE" }

/-- A user with every attribute of the spec's acceptance example except the
donor flag. -/
def nonDonorU : User :=
  { id := 2, is_authenticated := true, date_of_birth := some ⟨1994, 1, 1⟩,
    blood_group := "O+", weight := some 60, last_donation_date := none,
    is_email_verified := true, is_donor := false, is_recipient := true,
    is_available_for_donation := true, email_verification_token := 3 }

/-- The spec's acceptance example user: age 30, 60 kg, O+, available, verified. -/
def eligibleDonorU : User :=
  { id := 2, is_authenticated := true, date_of_birth := some ⟨1994, 1, 1⟩,
    blood_group := "O+", weight := some 60, last_donation_date := none,
    is_email_verified := true, is_donor := true, is_recipient := true,
    is_available_for_donation := true, email_verification_token := 4 }

/-- An active O+ request due one day after `now0`. -/
def requestTomorrow : BloodRequest :=
  { id := 12, requester := reqOwner, blood_group_needed := "O+",
    needed_by_date := some ⟨⟨2024, 6, 2⟩, 0⟩, status := "ACTIVE" }

/-- A reference instant: midnight, 2024-06-01. -/
def now0 : DateTime := ⟨⟨2024, 6, 1⟩, 0⟩

/-- A user with no date of birth and no weight on file. -/
def emptyU : User :=
  { id := 3, is_authenticated := true, date_of_birth := none, blood_group := "",
    weight := none, last_donation_date := none, is_email_verified := false,
    is_donor := true, is_recipient := true, is_available_for_donation := true,
    email_verification_token := 2 }

/-- A donor who last donated 89 days before 2024-06-01. -/
def recentDonor : User :=
  { id := 4, is_authenticated := true, date_of_birth := some ⟨1990, 1, 1⟩,
    blood_group := "O+", weight := some 70, last_donation_date := some ⟨2024, 3, 4⟩,
    is_email_verified := true, is_donor := true, is_recipient := true,
    is_available_for_donation := true, email_verification_token := 6 }

/-- A donor who last donated exactly 90 days before 2024-06-01. -/
def cooldownDonor : User :=
  { id := 5, is_authenticated := true, date_of_birth := some ⟨1990, 1, 1⟩,
    blood_group := "O+", weight := some 70, last_donation_date := some ⟨2024, 3, 3⟩,
    is_email_verified := true, is_donor := true, is_recipient := true,
    is_available_for_donation := true, email_verification_token := 7 }

/-- A cancelled O+ request owned by `reqOwner`. -/
def requestCancelled : BloodRequest :=
  { id := 11, requester := reqOwner, blood_group_needed := "O+",
    needed_by_date := none, status := "CANCELLED" }

/-- An existing response of donor 2 to request 10. -/
def respX : Response := ⟨10, 2, "ACCEPTED", ""⟩

/-- A not-yet-verified user holding verification token 5. -/
def unverifiedU : User :=
  { id := 7, is_authenticated := true, date_of_birth := none, blood_group := "",
    weight := none, last_donation_date := none, is_email_verified := false,
    is_donor := true, is_recipient := true, is_available_for_donation := true,
    email_verification_token := 5 }

/-- After the verifying update of the unique token match, the token lookup
finds exactly the updated, now verified record. -/
lemma filter_token_after (db : List User) (token : Nat) (u : User)
    (hids : (db.map User.id).Nodup)
    (hfil : db.filter (fun v => v.email_verification_token = token) = [u]) :
    (db.map (fun v => if v.id = u.id then { u with is_email_verified := true } else v)).filter
      (fun v => v.email_verification_token = token) =
      [{ u with is_email_verified := true }] := by
  have hptok : u.email_verification_token = token := by
    have hmem : u ∈ db.filter (fun v => decide (v.email_verification_token = token)) := by
      rw [hfil]
      exact List.mem_singleton_self u
    simpa using List.of_mem_filter hmem
  revert hids hfil
  induction db with
  | nil =>
    intro _ hfil
    simp at hfil
  | cons a t ih =>
    intro hids hfil
    rw [List.map_cons, List.nodup_cons] at hids
    obtain ⟨hhead, htail⟩ := hids
    by_cases hpa : a.email_verification_token = token
    · rw [List.filter_cons_of_pos (by simpa using hpa)] at hfil
      have hau : a = u := (List.cons.inj hfil).1
      have hnil : t.filter (fun v => decide (v.email_verification_token = token)) = [] :=
        (List.cons.inj hfil).2
      subst hau
      rw [List.map_cons, if_pos rfl]
      rw [List.filter_cons_of_pos (by simpa using hptok)]
      have : (t.map (fun v =>
          if v.id = a.id then { a with is_email_verified := true } else v)).filter
          (fun v => decide (v.email_verification_token = token)) = [] := by
        rw [List.filter_eq_nil_iff]
        intro x hx
        obtain ⟨w, hw, rfl⟩ := List.mem_map.mp hx
        by_cases hwid : w.id = a.id
        · exact absurd (hwid ▸ List.mem_map_of_mem User.id hw) hhead
        · rw [if_neg hwid]
          have := List.filter_eq_nil_iff.mp hnil w hw
          simpa using this
      rw [this]
    · rw [List.filter_cons_of_neg (by simpa using hpa)] at hfil
      have hut : u ∈ t := by
        have : u ∈ t.filter (fun v => decide (v.email_verification_token = token)) := by
          rw [hfil]
          exact List.mem_singleton_self u
        exact List.mem_of_mem_filter this
      have haid : a.id ≠ u.id := by
        intro h
        exact hhead (h ▸ List.mem_map_of_mem User.id hut)
      rw [List.map_cons, if_neg haid]
      rw [List.filter_cons_of_neg (by simpa using hpa)]
      exact ih htail hfil

/-- In a table with pairwise-distinct primary keys, equal ids mean equal rows. -/
lemma nodup_id_inj (db : List User) (hids : (db.map User.id).Nodup)
    (a b : User) (ha : a ∈ db) (hb : b ∈ db) (hab : a.id = b.id) : a = b := by
  induction db with
  | nil => cases ha
  | cons x l ih =>
    rw [List.map_cons, List.nodup_cons] at hids
    obtain ⟨hx, hl⟩ := hids
    rcases List.mem_cons.mp ha with rfl | ha2 <;> rcases List.mem_cons.mp hb with rfl | hb2
    · rfl
    · exact absurd (hab ▸ List.mem_map_of_mem User.id hb2) hx
    · exact absurd (hab ▸ List.mem_map_of_mem User.id ha2) hx
    · exact ih hl ha2 hb2

/-- Claim C1: `is_eligible_donor` is true iff the age computed from
`date_of_birth` on `today` is between 18 and 65 inclusive, the weight is set
and at least 50, the blood group is set (non-empty), and `can_donate` holds;
in particular, any user with a set weight below 50 is not eligible. -/
theorem is_eligible_donor_characterisation (u : User) (today : Date) :
    (u.is_eligible_donor today = true ↔
      (∃ a, u.get_age today = some a ∧ 18 ≤ a ∧ a ≤ 65) ∧
      (∃ w, u.weight = some w ∧ 50 ≤ w) ∧
      u.blood_group ≠ "" ∧ u.can_donate today = true) ∧
    (∀ w, u.weight = some w → w < 50 → u.is_eligible_donor today = false) := by
  have key : u.is_eligible_donor today = true ↔
      (∃ a, u.get_age today = some a ∧ 18 ≤ a ∧ a ≤ 65) ∧
      (∃ w, u.weight = some w ∧ 50 ≤ w) ∧
      u.blood_group ≠ "" ∧ u.can_donate today = true := by
    unfold User.is_eligible_donor
    cases hage : u.get_age today with
    | none => simp
    | some a =>
      cases hw : u.weight with
      | none =>
        by_cases ha : a = 0
        · simp [ha]
        · simp [ha]
      | some w =>
        by_cases ha : a = 0
        · subst ha
          simp
        · simp [ha]
          constructor
          · rintro ⟨⟨⟨h1865, hw0, hw50⟩, hbg⟩, hcd⟩
            exact ⟨h1865, hw50, hbg, hcd⟩
          · rintro ⟨h1865, hw50, hbg, hcd⟩
            refine ⟨⟨⟨h1865, ?_, hw50⟩, hbg⟩, hcd⟩
            intro h0
            rw [h0] at hw50
            norm_num at hw50
  refine ⟨key, ?_⟩
  intro w hw hlt
  cases h : u.is_eligible_donor today with
  | false => rfl
  | true =>
    obtain ⟨_, ⟨w', hw', hw50⟩, _, _⟩ := key.mp h
    rw [hw] at hw'
    cases hw'
    linarith

/-- Witness for C1: a 40 kg donor is not eligible on 2024-06-01. -/
theorem is_eligible_donor_characterisation_witness :
    User.is_eligible_donor underweightDonor ⟨2024, 6, 1⟩ = false :=
  (is_eligible_donor_characterisation underweightDonor ⟨2024, 6, 1⟩).2 40 rfl (by norm_num)

/-- Claim C2: `can_donate` is false for non-donors or unavailable users, true
for donors with no recorded donation, and otherwise true iff at least 90 days
passed since the last donation; 89 days before today refuses, 90 allows. -/
theorem can_donate_characterisation (u : User) (today : Date) :
    (u.can_donate today = true ↔
      u.is_donor = true ∧ u.is_available_for_donation = true ∧
      (u.last_donation_date = none ∨
        ∃ last, u.last_donation_date = some last ∧ 90 ≤ daysFromTo last today)) ∧
    (∀ last, u.last_donation_date = some last → daysFromTo last today = 89 →
      u.can_donate today = false) ∧
    (∀ last, u.last_donation_date = some last → daysFromTo last today = 90 →
      u.is_donor = true → u.is_available_for_donation = true →
      u.can_donate today = true) := by
  have key : u.can_donate today = true ↔
      u.is_donor = true ∧ u.is_available_for_donation = true ∧
      (u.last_donation_date = none ∨
        ∃ last, u.last_donation_date = some last ∧ 90 ≤ daysFromTo last today) := by
    unfold User.can_donate
    cases hd : u.is_donor with
    | false => simp [hd]
    | true =>
      cases ha : u.is_available_for_donation with
      | false => simp [ha]
      | true =>
        cases hl : u.last_donation_date with
        | none => simp [hl]
        | some last => simp [hl]
  refine ⟨key, ?_, ?_⟩
  · intro last hlast h89
    cases h : u.can_donate today with
    | false => rfl
    | true =>
      obtain ⟨-, -, hc⟩ := key.mp h
      rcases hc with hnone | ⟨last', hlast', h90⟩
      · rw [hlast] at hnone
        cases hnone
      · rw [hlast] at hlast'
        cases hlast'
        omega
  · intro last hlast h90 hd ha
    exact key.mpr ⟨hd, ha, Or.inr ⟨last, hlast, by omega⟩⟩

/-- Witness for C2: on 2024-06-01, a donation on 2024-03-04 (89 days earlier)
blocks donating and one on 2024-03-03 (90 days earlier) allows it. -/
theorem can_donate_characterisation_witness :
    User.can_donate recentDonor ⟨2024, 6, 1⟩ = false ∧
    User.can_donate cooldownDonor ⟨2024, 6, 1⟩ = true :=
  ⟨(can_donate_characterisation recentDonor ⟨2024, 6, 1⟩).2.1 ⟨2024, 3, 4⟩ rfl (by decide),
   (can_donate_characterisation cooldownDonor ⟨2024, 6, 1⟩).2.2 ⟨2024, 3, 3⟩ rfl
     (by decide) rfl rfl⟩

/-- Claim C3: `can_accept` is true iff the user is present, authenticated, not
the requester, an eligible donor, with matching blood group, on an ACTIVE,
unexpired request; it is false for non-ACTIVE or expired requests regardless
of blood-group match. -/
theorem can_accept_characterisation (r : BloodRequest) (user : Option User) (now : DateTime) :
    (r.can_accept user now = true ↔
      ∃ u, user = some u ∧ u.is_authenticated = true ∧ u.id ≠ r.requester.id ∧
        u.is_eligible_donor now.date = true ∧ u.blood_group = r.blood_group_needed ∧
        r.status = "ACTIVE" ∧ r.is_expired now = false) ∧
    (r.status ≠ "ACTIVE" → r.can_accept user now = false) ∧
    (r.is_expired now = true → r.can_accept user now = false) := by
  have key : r.can_accept user now = true ↔
      ∃ u, user = some u ∧ u.is_authenticated = true ∧ u.id ≠ r.requester.id ∧
        u.is_eligible_donor now.date = true ∧ u.blood_group = r.blood_group_needed ∧
        r.status = "ACTIVE" ∧ r.is_expired now = false := by
    unfold BloodRequest.can_accept
    cases user with
    | none => simp
    | some u =>
      cases hauth : u.is_authenticated with
      | false => simp [hauth]
      | true =>
        simp [hauth]
        tauto
  refine ⟨key, ?_, ?_⟩
  · intro hst
    cases h : r.can_accept user now with
    | false => rfl
    | true =>
      obtain ⟨u, -, -, -, -, -, hact, -⟩ := key.mp h
      exact absurd hact hst
  · intro hexp
    cases h : r.can_accept user now with
    | false => rfl
    | true =>
      obtain ⟨u, -, -, -, -, -, -, hne⟩ := key.mp h
      rw [hexp] at hne
      cases hne

/-- Witness for C3: a cancelled request cannot be accepted even by a
blood-group-matching donor. -/
theorem can_accept_characterisation_witness :
    BloodRequest.can_accept requestCancelled (some underweightDonor) now0 = false :=
  (can_accept_characterisation requestCancelled (some underweightDonor) now0).2.1 (by decide)

/-- Claim C4: `get_compatible_donors` returns exactly the users with the
requested blood group that are donors, available and email-verified, excluding
the requester; the requester is never in the result. -/
theorem get_compatible_donors_characterisation (db : List User) (r : BloodRequest) :
    (∀ u, u ∈ BloodRequest.get_compatible_donors db r ↔
      u ∈ db ∧ u.blood_group = r.blood_group_needed ∧ u.is_donor = true ∧
      u.is_available_for_donation = true ∧ u.is_email_verified = true ∧
      u.id ≠ r.requester.id) ∧
    r.requester ∉ BloodRequest.get_compatible_donors db r := by
  have key : ∀ u, u ∈ BloodRequest.get_compatible_donors db r ↔
      u ∈ db ∧ u.blood_group = r.blood_group_needed ∧ u.is_donor = true ∧
      u.is_available_for_donation = true ∧ u.is_email_verified = true ∧
      u.id ≠ r.requester.id := by
    intro u
    simp [BloodRequest.get_compatible_donors, List.mem_filter]
    tauto
  refine ⟨key, ?_⟩
  intro hmem
  obtain ⟨-, -, -, -, -, hne⟩ := (key r.requester).mp hmem
  exact hne rfl

/-- Witness for C4: a matching donor is returned for a concrete table. -/
theorem get_compatible_donors_characterisation_witness :
    underweightDonor ∈ BloodRequest.get_compatible_donors [underweightDonor] requestO :=
  ((get_compatible_donors_characterisation [underweightDonor] requestO).1
    underweightDonor).mpr (by decide)

/-- Counterexample to C5: a 40 kg user is returned by
`get_compatible_donors` yet `is_eligible_donor` is false for them — the query
checks neither age, nor weight, nor the donation cooldown. -/
theorem compatible_donor_not_eligible_cex :
    underweightDonor ∈ BloodRequest.get_compatible_donors [underweightDonor] requestO ∧
    User.is_eligible_donor underweightDonor ⟨2024, 6, 1⟩ = false := by
  decide

/-- Claim C5 (amended): every user returned by `get_compatible_donors` has the
requested blood group and is a donor, available and email-verified (and is not
the requester); full `is_eligible_donor` eligibility is not guaranteed. -/
theorem get_compatible_donors_members_flags (db : List User) (r : BloodRequest) :
    ∀ u ∈ BloodRequest.get_compatible_donors db r,
      u.blood_group = r.blood_group_needed ∧ u.is_donor = true ∧
      u.is_available_for_donation = true ∧ u.is_email_verified = true ∧
      u.id ≠ r.requester.id := by
  intro u hu
  simp [BloodRequest.get_compatible_donors, List.mem_filter] at hu
  tauto

/-- Witness for amended C5: the returned 40 kg user carries the donor flag. -/
theorem get_compatible_donors_members_flags_witness :
    underweightDonor.is_donor = true :=
  (get_compatible_donors_members_flags [underweightDonor] requestO
    underweightDonor (by decide)).2.1

/-- Counterexample to C6: a user with every attribute the claim lists (age 30,
60 kg, O+, available, verified) against an ACTIVE O+ request due one day later
is still refused, because the user's donor flag is off. -/
theorem can_accept_example_cex :
    User.get_age nonDonorU now0.date = some 30 ∧ nonDonorU.weight = some 60 ∧
    nonDonorU.blood_group = "O+" ∧ nonDonorU.is_available_for_donation = true ∧
    nonDonorU.is_email_verified = true ∧
    requestTomorrow.blood_group_needed = "O+" ∧ requestTomorrow.status = "ACTIVE" ∧
    (∃ nbd, requestTomorrow.needed_by_date = some nbd ∧ dtKey nbd = dtKey now0 + 86400) ∧
    BloodRequest.can_accept requestTomorrow (some nonDonorU) now0 = false := by
  refine ⟨by decide, by decide, by decide, by decide, by decide, by decide, by decide,
    ⟨⟨⟨2024, 6, 2⟩, 0⟩, rfl, by decide⟩, by decide⟩

/-- Claim C6 (amended): a user of age 30, weight 60, blood group O+, available
and email-verified — who moreover is authenticated, has the donor flag set,
has no recorded last donation, and is not the requester — can accept an ACTIVE
O+ request whose deadline is one day in the future. -/
theorem can_accept_example_amended (u : User) (r : BloodRequest) (now nbd : DateTime)
    (h_age : u.get_age now.date = some 30) (h_w : u.weight = some 60)
    (h_bg : u.blood_group = "O+") (h_avail : u.is_available_for_donation = true)
    (h_ver : u.is_email_verified = true)
    (h_need : r.blood_group_needed = "O+") (h_status : r.status = "ACTIVE")
    (h_nbd : r.needed_by_date = some nbd) (h_tom : dtKey nbd = dtKey now + 86400)
    (h_auth : u.is_authenticated = true) (h_donor : u.is_donor = true)
    (h_last : u.last_donation_date = none) (h_noteq : u.id ≠ r.requester.id) :
    r.can_accept (some u) now = true := by
  have hcd : u.can_donate now.date = true := by
    unfold User.can_donate
    simp [h_donor, h_avail, h_last]
  have helig : u.is_eligible_donor now.date = true := by
    unfold User.is_eligible_donor
    simp [h_age, h_w, h_bg, hcd]
    norm_num
  have hexp : r.is_expired now = false := by
    unfold BloodRequest.is_expired
    simp [h_nbd]
    omega
  unfold BloodRequest.can_accept
  simp [h_auth, h_noteq, helig, h_bg, h_need, h_status, hexp]

/-- Witness for amended C6: the example user with the donor flag set is
accepted for the request due on 2024-06-02 at instant 2024-06-01. -/
theorem can_accept_example_amended_witness :
    BloodRequest.can_accept requestTomorrow (some eligibleDonorU) now0 = true :=
  can_accept_example_amended eligibleDonorU requestTomorrow now0 ⟨⟨2024, 6, 2⟩, 0⟩
    (by decide) rfl rfl rfl rfl rfl rfl rfl (by decide) rfl rfl rfl (by decide)

/-- Claim C7: the predicates fail closed on missing data — an absent date of
birth makes `get_age` undefined and `is_eligible_donor` false, and an absent
weight makes `is_eligible_donor` false.  (Totality of `get_age`, `can_donate`,
`is_eligible_donor` and `is_expired` holds by construction: each is a total
function of its inputs for every combination of absent optional fields.) -/
theorem eligibility_fail_closed (u : User) (today : Date) :
    (u.date_of_birth = none → u.get_age today = none ∧ u.is_eligible_donor today = false) ∧
    (u.weight = none → u.is_eligible_donor today = false) := by
  constructor
  · intro h
    have hage : u.get_age today = none := by
      unfold User.get_age
      rw [h]
    refine ⟨hage, ?_⟩
    unfold User.is_eligible_donor
    rw [hage]
  · intro h
    unfold User.is_eligible_donor
    cases hage : u.get_age today with
    | none => rfl
    | some a =>
      by_cases ha : a = 0
      · simp [ha]
      · simp [ha, h]

/-- Witness for C7: a user with no date of birth has undefined age and is not
eligible. -/
theorem eligibility_fail_closed_witness :
    User.get_age emptyU ⟨2024, 6, 1⟩ = none ∧
    User.is_eligible_donor emptyU ⟨2024, 6, 1⟩ = false :=
  (eligibility_fail_closed emptyU ⟨2024, 6, 1⟩).1 rfl

/-- Claim C8: every reachable state of the response table has at most one
response per (blood_request, donor) pair, and the creation operation refuses
to add a response when one by the same donor for the same request exists. -/
theorem response_pair_uniqueness :
    (∀ s, ReachableResponses s → uniquePairs s) ∧
    (∀ (s : List Response) (r : BloodRequest) (u : User) (now : DateTime)
       (resp msg : String),
      s.any (fun x => decide (x.blood_request_id = r.id) && decide (x.donor_id = u.id)) = true →
      respondCreate s r u now resp msg = s) := by
  have refuse : ∀ (s : List Response) (r : BloodRequest) (u : User) (now : DateTime)
      (resp msg : String),
      s.any (fun x => decide (x.blood_request_id = r.id) && decide (x.donor_id = u.id)) = true →
      respondCreate s r u now resp msg = s := by
    intro s r u now resp msg h
    unfold respondCreate
    rw [h]
    simp
  refine ⟨?_, refuse⟩
  intro s hs
  induction hs with
  | init => exact List.Pairwise.nil
  | step s r u now resp msg hs ih =>
    unfold respondCreate
    cases hca : (!(r.can_accept (some u) now)) with
    | true => simpa [hca] using ih
    | false =>
      cases hany : s.any
          (fun x => decide (x.blood_request_id = r.id) && decide (x.donor_id = u.id)) with
      | true => simpa [hca, hany] using ih
      | false =>
        simp only [hca, hany, Bool.false_eq_true, if_false]
        rw [List.any_eq_false] at hany
        unfold uniquePairs
        rw [List.pairwise_append]
        refine ⟨ih, List.pairwise_singleton _ _, ?_⟩
        intro a ha b hb
        simp only [List.mem_singleton] at hb
        subst hb
        intro ⟨h1, h2⟩
        have := hany a ha
        simp at this
        exact absurd h2 (by simpa [h1] using this h1)

/-- Witness for C8: the empty table satisfies the invariant, and a duplicate
(request 10, donor 2) response is refused. -/
theorem response_pair_uniqueness_witness :
    uniquePairs [] ∧
    respondCreate [respX] requestO underweightDonor now0 "ACCEPTED" "" = [respX] :=
  ⟨response_pair_uniqueness.1 [] ReachableResponses.init,
   response_pair_uniqueness.2 [respX] requestO underweightDonor now0 "ACCEPTED" "" (by decide)⟩

/-- Claim C9: a request with no `needed_by_date` is never expired, and
`can_accept` then reduces to the remaining conditions, with no expiry check. -/
theorem no_expiry_when_date_absent (r : BloodRequest) (user : Option User) (now : DateTime)
    (h : r.needed_by_date = none) :
    r.is_expired now = false ∧
    (r.can_accept user now = true ↔
      ∃ u, user = some u ∧ u.is_authenticated = true ∧ u.id ≠ r.requester.id ∧
        u.is_eligible_donor now.date = true ∧ u.blood_group = r.blood_group_needed ∧
        r.status = "ACTIVE") := by
  have hexp : r.is_expired now = false := by
    unfold BloodRequest.is_expired
    rw [h]
  refine ⟨hexp, ?_⟩
  unfold BloodRequest.can_accept
  cases user with
  | none => simp
  | some u =>
    cases hauth : u.is_authenticated with
    | false => simp [hauth]
    | true =>
      simp [hauth, hexp]
      tauto

/-- Witness for C9: the deadline-free request `requestO` is not expired. -/
theorem no_expiry_when_date_absent_witness :
    requestO.is_expired now0 = false :=
  (no_expiry_when_date_absent requestO none now0 rfl).1

/-- Claim C10: email verification is idempotent — with distinct primary keys
in the table, verifying a token whose unique holder is already verified
changes nothing and performs no save; running the operation twice yields the
same state as running it once, with no save and the same exception outcome;
a first verification performs one save that changes only the found user's
`is_email_verified` flag, leaving all other rows untouched; and with several
holders of the token the operation raises (`MultipleObjectsReturned` escapes
the view), leaving the table unchanged with no save. -/
theorem email_verification_idempotent (db : List User) (token : Nat)
    (hids : (db.map User.id).Nodup) :
    (∀ u, db.filter (fun v => v.email_verification_token = token) = [u] →
      u.is_email_verified = true → emailVerify db token = (db, 0, false)) ∧
    emailVerify (emailVerify db token).1 token =
      ((emailVerify db token).1, 0, (emailVerify db token).2.2) ∧
    (∀ u, db.filter (fun v => v.email_verification_token = token) = [u] →
      u.is_email_verified = false →
      (emailVerify db token).2 = (1, false) ∧
      (emailVerify db token).1.length = db.length ∧
      ∀ (i : Nat) (old upd : User), db[i]? = some old →
        (emailVerify db token).1[i]? = some upd →
        if old.id = u.id
        then sameExceptVerified upd old ∧ upd.is_email_verified = true
        else upd = old) ∧
    (∀ a b t, db.filter (fun v => v.email_verification_token = token) = a :: b :: t →
      emailVerify db token = (db, 0, true)) := by
  have errpath : ∀ a b t,
      db.filter (fun v => v.email_verification_token = token) = a :: b :: t →
      emailVerify db token = (db, 0, true) := by
    intro a b t hfil
    unfold emailVerify
    rw [hfil]
  refine ⟨?_, ?_, ?_, errpath⟩
  · intro u hfil hv
    unfold emailVerify
    rw [hfil]
    simp [hv]
  · cases hfil : db.filter (fun v => v.email_verification_token = token) with
    | nil =>
      have h1 : emailVerify db token = (db, 0, false) := by
        unfold emailVerify
        rw [hfil]
      rw [h1]
      exact h1
    | cons a t =>
      cases t with
      | nil =>
        cases hv : a.is_email_verified with
        | true =>
          have h1 : emailVerify db token = (db, 0, false) := by
            unfold emailVerify
            rw [hfil]
            simp [hv]
          rw [h1]
          exact h1
        | false =>
          have h1 : emailVerify db token =
              (db.map (fun v =>
                if v.id = a.id then { a with is_email_verified := true } else v), 1, false) := by
            unfold emailVerify
            rw [hfil]
            simp [hv]
          rw [h1]
          unfold emailVerify
          rw [filter_token_after db token a hids hfil]
          simp
      | cons b t2 =>
        have h1 : emailVerify db token = (db, 0, true) := errpath a b t2 hfil
        rw [h1]
        exact h1
  · intro u hfil hv
    have h1 : emailVerify db token =
        (db.map (fun v =>
          if v.id = u.id then { u with is_email_verified := true } else v), 1, false) := by
      unfold emailVerify
      rw [hfil]
      simp [hv]
    refine ⟨by rw [h1], by rw [h1]; simp, ?_⟩
    intro i old upd hold hupd
    rw [h1] at hupd
    simp only [List.getElem?_map, hold, Option.map_some] at hupd
    have hupd2 : upd = if old.id = u.id then { u with is_email_verified := true } else old := by
      cases hupd
      rfl
    have hmemold : old ∈ db := List.getElem?_mem hold
    have hmemu : u ∈ db := by
      have : u ∈ db.filter (fun v => decide (v.email_verification_token = token)) := by
        rw [hfil]
        exact List.mem_singleton_self u
      exact List.mem_of_mem_filter this
    by_cases hid : old.id = u.id
    · rw [if_pos hid]
      have : old = u := nodup_id_inj db hids old u hmemold hmemu hid
      subst this
      rw [hupd2, if_pos rfl]
      exact ⟨⟨rfl, rfl, rfl, rfl, rfl, rfl, rfl, rfl, rfl, rfl⟩, rfl⟩
    · rw [if_neg hid]
      rw [hupd2, if_neg hid]

/-- Witness for C10: on a one-user table, verifying token 5 twice yields the
same table as verifying it once, with no second save and no exception. -/
theorem email_verification_idempotent_witness :
    emailVerify (emailVerify [unverifiedU] 5).1 5 =
      ((emailVerify [unverifiedU] 5).1, 0, (emailVerify [unverifiedU] 5).2.2) :=
  (email_verification_idempotent [unverifiedU] 5 (by decide)).2.1
